import Mathlib

/-!
Verification development for the BigData time-series data-access layer
(`influx_io_updated.py` and `influx_io.py`).

The Python module is embedded shallowly:

* Python `dict` records become structures with `Option String` / `Option Int`
  fields (a `none` field models an absent key).
* `datetime` instants are modelled as `Int` epoch **microseconds** (UTC).
* `datetime.now(timezone.utc)` is nondeterministic at the source level; every
  embedded function that can reach a `now()` call receives the observed value
  explicitly: a single captured `now : Int` where the source captures it once,
  and a `clock : Nat → Int` giving the value a fresh `now()` call would return
  while processing the record at a given input index.
* `datetime.fromisoformat` (CPython 3.10 grammar) is modelled by an executable
  parser over `List Char`; `.astimezone(timezone.utc)` on a naive datetime
  interprets it in the process-local timezone, passed in as `tzLocalUsec : Int`
  (the local UTC offset in microseconds).
* The InfluxDB client is external; `write_points` returns, besides the count,
  the list of externally visible effects (client creation, batched write call).
* Python float payloads (`stance_conf`) are carried opaquely as integers; no
  claim depends on float arithmetic.
-/

/-! ## Python value helpers -/

/-- Python `str(x or dflt)` for an optional string value `x`:
`None` and `""` are falsy. -/
def pyStr (x : Option String) (dflt : String) : String :=
  match x with
  | none => dflt
  | some s => if s = "" then dflt else s

/-- Python `a or b` on two optional string values: `None` and `""` are falsy. -/
def pyOr (a b : Option String) : Option String :=
  match a with
  | none => b
  | some s => if s = "" then b else some s

/-- Python `int(x or 0)` for an optional integer value. -/
def pyInt (x : Option Int) : Int :=
  match x with
  | none => 0
  | some v => v

/-- Python `str.strip()` on the underlying character list. -/
def pyStrip (l : List Char) : List Char :=
  ((l.dropWhile Char.isWhitespace).reverse.dropWhile Char.isWhitespace).reverse

/-! ## `_clean_usid` (influx_io_updated.py lines 19-29, influx_io.py 17-21) -/

/-- `_clean_usid`: `None` stays `None`, whitespace is stripped, empty strings
are discarded. -/
def _clean_usid (x : Option String) : Option String :=
  match x with
  | none => none
  | some s =>
    let t := String.mk (pyStrip s.data)
    if t = "" then none else some t

/-! ## Model of `datetime.fromisoformat` (CPython 3.10 grammar)

`datetime.fromisoformat` accepts `YYYY-MM-DD[*HH[:MM[:SS[.fff[fff]]]]]`
optionally followed by an offset `+HH:MM[:SS[.ffffff]]` (or `-`); the
`datetime`/`timezone` constructors validate the field ranges. -/

def digitVal (c : Char) : Option Nat :=
  if c.isDigit then some (c.toNat - 48) else none

def read2 : List Char → Option (Nat × List Char)
  | a :: b :: rest =>
    match digitVal a, digitVal b with
    | some x, some y => some (10 * x + y, rest)
    | _, _ => none
  | _ => none

def read4 (l : List Char) : Option (Nat × List Char) :=
  match read2 l with
  | some (x, r1) =>
    match read2 r1 with
    | some (y, r2) => some (100 * x + y, r2)
    | none => none
  | none => none

def readDigitsAux : Nat → List Char → Option Nat
  | acc, [] => some acc
  | acc, c :: rest =>
    match digitVal c with
    | some d => readDigitsAux (10 * acc + d) rest
    | none => none

def readDigits (l : List Char) : Option Nat := readDigitsAux 0 l

/-- Split a time string at the first `+`/`-` (the timezone designator);
returns the time part and, when a sign was found, its negativity and the
characters after it. -/
def splitTzAux : List Char → List Char × Option (Bool × List Char)
  | [] => ([], none)
  | c :: rest =>
    if c = '-' then ([], some (true, rest))
    else if c = '+' then ([], some (false, rest))
    else
      let (pre, tzp) := splitTzAux rest
      (c :: pre, tzp)

/-- Fraction part after the dot: exactly 3 or 6 digits, yielding microseconds. -/
def parseFrac (fr : List Char) : Option Nat :=
  if fr.length = 3 then
    match readDigits fr with
    | some f => some (f * 1000)
    | none => none
  else if fr.length = 6 then readDigits fr
  else none

/-- CPython `_parse_hh_mm_ss_ff`: `HH[:MM[:SS[.fff[fff]]]]`, consuming the
whole input. Returns `(hour, minute, second, microsecond)`. -/
def parseHMSF (l : List Char) : Option (Nat × Nat × Nat × Nat) :=
  match read2 l with
  | none => none
  | some (h, rest) =>
    match rest with
    | [] => some (h, 0, 0, 0)
    | ':' :: r2 =>
      match read2 r2 with
      | none => none
      | some (m, rest2) =>
        match rest2 with
        | [] => some (h, m, 0, 0)
        | ':' :: r3 =>
          match read2 r3 with
          | none => none
          | some (s, rest3) =>
            match rest3 with
            | [] => some (h, m, s, 0)
            | '.' :: fr =>
              match parseFrac fr with
              | some f => some (h, m, s, f)
              | none => none
            | _ => none
        | _ => none
    | _ => none

def isLeapYear (y : Nat) : Bool :=
  y % 4 = 0 && (y % 100 ≠ 0 || y % 400 = 0)

def daysInMonth (y : Nat) (m : Nat) : Nat :=
  if m = 2 then (if isLeapYear y then 29 else 28)
  else if m = 4 || m = 6 || m = 9 || m = 11 then 30
  else 31

/-- A parsed Python `datetime`: calendar fields plus an optional fixed UTC
offset in microseconds (`none` = naive datetime). -/
structure PyDateTime where
  year : Nat
  month : Nat
  day : Nat
  hour : Nat
  minute : Nat
  second : Nat
  usec : Nat
  tzUsec : Option Int
deriving DecidableEq

/-- The range checks done by the `datetime` constructor
(`MINYEAR = 1`, `MAXYEAR = 9999`). -/
def mkValidated (y mo d h mi s us : Nat) (tz : Option Int) : Option PyDateTime :=
  if 1 ≤ y && y ≤ 9999 && 1 ≤ mo && mo ≤ 12 && 1 ≤ d && d ≤ daysInMonth y mo
      && h ≤ 23 && mi ≤ 59 && s ≤ 59 && us ≤ 999999 then
    some ⟨y, mo, d, h, mi, s, us, tz⟩
  else none

/-- Timezone designator: must have length 5, 8 or 15 (`HH:MM`, `HH:MM:SS`,
`HH:MM:SS.ffffff`); `timezone()` requires the offset magnitude to be strictly
below 24 hours. -/
def parseTzPart (neg : Bool) (tzc : List Char) : Option Int :=
  if tzc.length = 5 || tzc.length = 8 || tzc.length = 15 then
    match parseHMSF tzc with
    | some (h, m, s, us) =>
      let mag : Nat := (h * 3600 + m * 60 + s) * 1000000 + us
      if mag < 86400000000 then
        some (if neg then -(mag : Int) else (mag : Int))
      else none
    | none => none
  else none

/-- `datetime.fromisoformat` on a character list. -/
def fromisoformat (l : List Char) : Option PyDateTime :=
  match read4 l with
  | none => none
  | some (y, r1) =>
    match r1 with
    | '-' :: r2 =>
      match read2 r2 with
      | none => none
      | some (mo, r3) =>
        match r3 with
        | '-' :: r4 =>
          match read2 r4 with
          | none => none
          | some (d, r5) =>
            match r5 with
            | [] => mkValidated y mo d 0 0 0 0 none
            | _sep :: timestr =>
              let (pre, tzp) := splitTzAux timestr
              match parseHMSF pre with
              | none => none
              | some (h, mi, s, us) =>
                match tzp with
                | none => mkValidated y mo d h mi s us none
                | some (neg, tzc) =>
                  match parseTzPart neg tzc with
                  | some off => mkValidated y mo d h mi s us (some off)
                  | none => none
        | _ => none
    | _ => none

/-- Days since 1970-01-01 of a civil date (valid for `y ≥ 1`). -/
def daysFromCivil (y mo d : Nat) : Int :=
  let yAdj : Nat := if mo ≤ 2 then y - 1 else y
  let era : Nat := yAdj / 400
  let yoe : Nat := yAdj % 400
  let mp : Nat := (mo + 9) % 12
  let doy : Nat := (153 * mp + 2) / 5 + (d - 1)
  let doe : Nat := yoe * 365 + yoe / 4 - yoe / 100 + doy
  ((era * 146097 + doe : Nat) : Int) - 719468

/-- `.astimezone(timezone.utc)` followed by reading the instant as epoch
microseconds: an aware datetime is shifted by its own offset, a naive one is
interpreted in the process-local timezone `tzLocalUsec`. -/
def toEpochUsec (tzLocalUsec : Int) (d : PyDateTime) : Int :=
  let naive : Int :=
    (daysFromCivil d.year d.month d.day * 86400
      + ((d.hour * 3600 + d.minute * 60 + d.second : Nat) : Int)) * 1000000
      + ((d.usec : Nat) : Int)
  naive - d.tzUsec.getD tzLocalUsec

/-- The UTC instant (epoch microseconds) denoted by a whole-second UTC
date-time. -/
def utc_instant (y mo d h mi s : Nat) : Int :=
  (daysFromCivil y mo d * 86400 + ((h * 3600 + mi * 60 + s : Nat) : Int)) * 1000000

/-- `"…".replace("Z", "+00:00")` (single-character pattern). -/
def replaceZ : List Char → List Char
  | [] => []
  | c :: rest =>
    if c = 'Z' then '+' :: '0' :: '0' :: ':' :: '0' :: '0' :: replaceZ rest
    else c :: replaceZ rest

/-! ## `_parse_iso` (influx_io_updated.py lines 32-44, influx_io.py 24-36) -/

/-- `_parse_iso`: parse an ISO-8601 timestamp and return UTC; supports the
`Z` suffix; falls back to the current time (`now`) when the input is empty or
unparseable. -/
def _parse_iso (now tzLocalUsec : Int) (dt_str : String) : Int :=
  if dt_str = "" then now
  else
    match fromisoformat (replaceZ dt_str.data) with
    | some d => toEpochUsec tzLocalUsec d
    | none => now

/-! ## `_parse_unix_utc_seconds` (influx_io_updated.py lines 47-58) -/

/-- The dynamic value found under `created_utc`: absent (`None` or `""`),
present but not convertible by `int(float(x))` (including out-of-range values
rejected by `fromtimestamp`), or convertible to whole epoch seconds. -/
inductive UnixVal where
  | absent
  | invalid
  | val (sec : Int)
deriving DecidableEq

/-- `_parse_unix_utc_seconds`: unix seconds → UTC instant (epoch
microseconds), `none` when missing or invalid; whole seconds only. -/
def _parse_unix_utc_seconds (x : UnixVal) : Option Int :=
  match x with
  | UnixVal.absent => none
  | UnixVal.invalid => none
  | UnixVal.val sec => some (sec * 1000000)

/-! ## `_clip` (influx_io_updated.py lines 72-77) -/

/-- `_clip`: truncate long texts to `n` characters plus a `…` marker. -/
def _clip (s : String) (n : Nat) : String :=
  if s.length ≤ n then s else String.mk (s.data.take n) ++ "…"

/-! ## Points, effects and `write_points` -/

inductive FieldVal where
  | s (v : String)
  | i (v : Int)
  | f (v : Int)
deriving DecidableEq

/-- An InfluxDB point: measurement, tag list, field list, instant. -/
structure Point where
  measurement : String
  tags : List (String × String)
  fields : List (String × FieldVal)
  time : Int
deriving DecidableEq

/-- Externally visible interactions with the backing store. -/
inductive Effect where
  | clientCreated
  | writeCall (bucket org : String) (records : List Point)
deriving DecidableEq

/-- Environment defaults (influx_io_updated.py lines 13-16). -/
def INFLUX_BUCKET : String := "bigdata_bucket"

def INFLUX_ORG : String := "bigdata"

/-- `write_points` (influx_io_updated.py lines 83-91): empty batch → count 0
and no client at all; otherwise one client and one batched write call,
returning the batch length. -/
def write_points (points : List Point) : Nat × List Effect :=
  if points.isEmpty then (0, [])
  else (points.length,
    [Effect.clientCreated, Effect.writeCall INFLUX_BUCKET INFLUX_ORG points])

/-! ## ORF articles: `write_orf_articles` (influx_io_updated.py lines 97-126) -/

structure OrfItem where
  usid : Option String
  date : Option String
  title : Option String
  link : Option String
  oewaCategory : Option String
deriving DecidableEq

/-- Loop body of `write_orf_articles` for one item; `nowFresh` is what a
`now()` call during `_parse_iso` would return for this item. -/
def orfItemPoint (nowFresh tzLocalUsec : Int) (it : OrfItem) : Option Point :=
  match _clean_usid it.usid with
  | none => none
  | some usid =>
    let dt := _parse_iso nowFresh tzLocalUsec (pyStr it.date "")
    let category := pyStr it.oewaCategory "unknown"
    some
      { measurement := "orf_article"
        tags := [("category", category), ("usid", usid)]
        fields := [("title", FieldVal.s (pyStr it.title "")),
                   ("link", FieldVal.s (pyStr it.link ""))]
        time := dt }

def orf_article_points (clock : Nat → Int) (tzLocalUsec : Int) :
    Nat → List OrfItem → List Point
  | _, [] => []
  | i, it :: rest =>
    match orfItemPoint (clock i) tzLocalUsec it with
    | none => orf_article_points clock tzLocalUsec (i + 1) rest
    | some p => p :: orf_article_points clock tzLocalUsec (i + 1) rest

def write_orf_articles (clock : Nat → Int) (tzLocalUsec : Int)
    (items : List OrfItem) : Nat × List Effect :=
  write_points (orf_article_points clock tzLocalUsec 0 items)

/-! ## Dedup step of `load_orf_articles_from_influx`
(influx_io_updated.py lines 162-167) -/

structure OrfRow where
  time : Option String
  usid : Option String
  title : Option String
  link : Option String
  date : Option String
deriving DecidableEq

/-- `if u and u not in dedup: dedup[u] = r` — one step of the dedup loop over
the insertion-ordered association list. -/
def dedupInsert (acc : List (String × OrfRow)) (r : OrfRow) :
    List (String × OrfRow) :=
  match _clean_usid r.usid with
  | none => acc
  | some u =>
    if acc.any (fun p => decide (p.1 = u)) then acc else acc ++ [(u, r)]

/-- The dedup step: `list(dedup.values())` after the loop. -/
def dedup_rows (rows : List OrfRow) : List OrfRow :=
  (rows.foldl dedupInsert []).map Prod.snd

/-! ## Reddit matches: `write_reddit_matches`
(influx_io_updated.py lines 173-211, influx_io.py lines 93-133) -/

structure MatchRow where
  article_usid : Option String
  reddit_id : Option String
  saved_at_utc : Option String
  source : Option String
  reddit_title : Option String
  reddit_permalink : Option String
  post_url : Option String
  checked_word_count : Option Int
  group_matches_in_window : Option Int
  reddit_selftext : Option String
  stance_label : Option String
  stance_conf : Option Int
deriving DecidableEq

/-- Loop body of `write_reddit_matches` for one row. `now` is the batch-level
timestamp captured once at the start of the call; `nowFresh` is what a fresh
`now()` call inside `_parse_iso` would return for this row. -/
def matchRowPoint (now nowFresh tzLocalUsec : Int) (r : MatchRow) :
    Option Point :=
  match _clean_usid r.article_usid, _clean_usid r.reddit_id with
  | some usid, some rid =>
    let dt_raw := pyStr r.saved_at_utc ""
    let dt := if dt_raw ≠ "" then _parse_iso nowFresh tzLocalUsec dt_raw else now
    some
      { measurement := "reddit_post"
        tags := [("usid", usid), ("source", pyStr r.source "")]
        fields := [("reddit_id", FieldVal.s rid),
                   ("title", FieldVal.s (pyStr r.reddit_title "")),
                   ("permalink", FieldVal.s (pyStr r.reddit_permalink "")),
                   ("url", FieldVal.s (pyStr r.post_url "")),
                   ("checked_word_count", FieldVal.i (pyInt r.checked_word_count)),
                   ("group_matches_in_window",
                     FieldVal.i (pyInt r.group_matches_in_window)),
                   ("selftext",
                     FieldVal.s (_clip (pyStr r.reddit_selftext "") 8000)),
                   ("stance_label", FieldVal.s (pyStr r.stance_label "")),
                   ("stance_conf", FieldVal.f (pyInt r.stance_conf))]
        time := dt }
  | _, _ => none

def reddit_match_points (now : Int) (clock : Nat → Int) (tzLocalUsec : Int) :
    Nat → List MatchRow → List Point
  | _, [] => []
  | i, r :: rest =>
    match matchRowPoint now (clock i) tzLocalUsec r with
    | none => reddit_match_points now clock tzLocalUsec (i + 1) rest
    | some p => p :: reddit_match_points now clock tzLocalUsec (i + 1) rest

def write_reddit_matches (now : Int) (clock : Nat → Int) (tzLocalUsec : Int)
    (rows : List MatchRow) : Nat × List Effect :=
  write_points (reddit_match_points now clock tzLocalUsec 0 rows)

/-- Loop body of the earlier `influx_io.py` variant of `write_reddit_matches`
(lines 93-133): identical identity and timestamp handling, fewer fields. -/
def matchRowPointLegacy (now nowFresh tzLocalUsec : Int) (r : MatchRow) :
    Option Point :=
  match _clean_usid r.article_usid, _clean_usid r.reddit_id with
  | some usid, some rid =>
    let dt_raw := pyStr r.saved_at_utc ""
    let dt := if dt_raw ≠ "" then _parse_iso nowFresh tzLocalUsec dt_raw else now
    some
      { measurement := "reddit_post"
        tags := [("usid", usid), ("source", pyStr r.source "")]
        fields := [("reddit_id", FieldVal.s rid),
                   ("title", FieldVal.s (pyStr r.reddit_title "")),
                   ("permalink", FieldVal.s (pyStr r.reddit_permalink "")),
                   ("url", FieldVal.s (pyStr r.post_url "")),
                   ("checked_word_count", FieldVal.i (pyInt r.checked_word_count)),
                   ("group_matches_in_window",
                     FieldVal.i (pyInt r.group_matches_in_window))]
        time := dt }
  | _, _ => none

/-! ## Stance updates: `write_reddit_stance_updates`
(influx_io_updated.py lines 214-245) -/

structure StanceRow where
  article_usid : Option String
  usid : Option String
  saved_at_utc : Option String
  time_field : Option String
  source : Option String
  stance_label : Option String
  stance_conf : Option Int
deriving DecidableEq

/-- Loop body of `write_reddit_stance_updates` for one row: note that
`_parse_iso` is applied unconditionally, so a missing timestamp falls back to
the fresh `now()` observed for this row. -/
def stanceRowPoint (nowFresh tzLocalUsec : Int) (r : StanceRow) :
    Option Point :=
  match _clean_usid (pyOr r.article_usid r.usid) with
  | none => none
  | some usid =>
    let dt_raw := pyStr (pyOr r.saved_at_utc r.time_field) ""
    let dt := _parse_iso nowFresh tzLocalUsec dt_raw
    let source := pyStr r.source ""
    some
      { measurement := "reddit_post"
        tags := [("usid", usid), ("source", source)]
        fields := [("stance_label", FieldVal.s (pyStr r.stance_label "")),
                   ("stance_conf", FieldVal.f (pyInt r.stance_conf))]
        time := dt }

def stance_update_points (clock : Nat → Int) (tzLocalUsec : Int) :
    Nat → List StanceRow → List Point
  | _, [] => []
  | i, r :: rest =>
    match stanceRowPoint (clock i) tzLocalUsec r with
    | none => stance_update_points clock tzLocalUsec (i + 1) rest
    | some p => p :: stance_update_points clock tzLocalUsec (i + 1) rest

def write_reddit_stance_updates (clock : Nat → Int) (tzLocalUsec : Int)
    (rows : List StanceRow) : Nat × List Effect :=
  write_points (stance_update_points clock tzLocalUsec 0 rows)

/-! ## Matcher rows: `reddit_rows_to_points` / `write_reddit_posts`
(influx_io_updated.py lines 285-334) -/

structure RedditRow where
  usid : Option String
  source : Option String
  reddit_id : Option String
  reddit_title : Option String
  reddit_permalink : Option String
  post_url : Option String
  reddit_selftext : Option String
  checked_word_count : Option Int
  group_matches_in_window : Option Int
  created_utc : UnixVal
deriving DecidableEq

/-- Loop body of `reddit_rows_to_points`: rows without identity or without a
parseable `created_utc` are skipped (to keep writes idempotent on rerun). -/
def redditRowPoint (r : RedditRow) : Option Point :=
  match _clean_usid r.usid, _clean_usid r.reddit_id with
  | some usid, some rid =>
    match _parse_unix_utc_seconds r.created_utc with
    | none => none
    | some dt =>
      some
        { measurement := "reddit_post"
          tags := [("usid", usid), ("source", pyStr r.source "")]
          fields := [("reddit_id", FieldVal.s rid),
                     ("title", FieldVal.s (pyStr r.reddit_title "")),
                     ("permalink", FieldVal.s (pyStr r.reddit_permalink "")),
                     ("url", FieldVal.s (pyStr r.post_url "")),
                     ("checked_word_count",
                       FieldVal.i (pyInt r.checked_word_count)),
                     ("group_matches_in_window",
                       FieldVal.i (pyInt r.group_matches_in_window)),
                     ("selftext",
                       FieldVal.s (_clip (pyStr r.reddit_selftext "") 8000))]
          time := dt }
  | _, _ => none

def reddit_rows_to_points (rows : List RedditRow) : List Point :=
  rows.filterMap redditRowPoint

def write_reddit_posts (rows : List RedditRow) : Nat × List Effect :=
  write_points (reddit_rows_to_points rows)

/-! ## Validity predicates (derived from the loop guards) -/

def orfItemValid (it : OrfItem) : Bool :=
  (_clean_usid it.usid).isSome

def matchRowValid (r : MatchRow) : Bool :=
  (_clean_usid r.article_usid).isSome && (_clean_usid r.reddit_id).isSome

def redditRowValid (r : RedditRow) : Bool :=
  (_clean_usid r.usid).isSome && (_clean_usid r.reddit_id).isSome
    && (_parse_unix_utc_seconds r.created_utc).isSome

def stanceRowHasIdentity (r : StanceRow) : Bool :=
  (_clean_usid (pyOr r.article_usid r.usid)).isSome

/-- The identity of a point in the backing store: measurement, tag set and
timestamp. -/
def pointKey (p : Point) : String × List (String × String) × Int :=
  (p.measurement, p.tags, p.time)

/-- Key test used to state first-occurrence-wins deduplication. -/
def rowKeyIs (u : String) (x : OrfRow) : Bool :=
  decide (_clean_usid x.usid = some u)

/-! ## Concrete sample inputs used by witnesses and counterexamples -/

/-- A stance-update record with a resolvable identity but no timestamp at all. -/
def c1row : StanceRow :=
  { article_usid := some "a", usid := none, saved_at_utc := none,
    time_field := none, source := none, stance_label := none,
    stance_conf := none }

def c2m : MatchRow :=
  { article_usid := some "123", reddit_id := some "r1",
    saved_at_utc := some "2026-01-06T13:40:58Z", source := some "reddit",
    reddit_title := none, reddit_permalink := none, post_url := none,
    checked_word_count := none, group_matches_in_window := none,
    reddit_selftext := none, stance_label := none, stance_conf := none }

def c2u : StanceRow :=
  { article_usid := some "123", usid := none,
    saved_at_utc := some "2026-01-06T13:40:58Z", time_field := none,
    source := some "reddit", stance_label := some "pro", stance_conf := some 1 }

def c2d : PyDateTime := ⟨2026, 1, 6, 13, 40, 58, 0, some 0⟩

def c4item : OrfItem :=
  { usid := some "x", date := none, title := none, link := none,
    oewaCategory := none }

def c4mrow : MatchRow :=
  { article_usid := some "x", reddit_id := some "y", saved_at_utc := none,
    source := none, reddit_title := none, reddit_permalink := none,
    post_url := none, checked_word_count := none,
    group_matches_in_window := none, reddit_selftext := none,
    stance_label := none, stance_conf := none }

def c4rrow : RedditRow :=
  { usid := some "x", source := none, reddit_id := some "y",
    reddit_title := none, reddit_permalink := none, post_url := none,
    reddit_selftext := none, checked_word_count := none,
    group_matches_in_window := none, created_utc := UnixVal.val 100 }

def c5dz : PyDateTime := ⟨2026, 1, 6, 13, 40, 58, 0, some 0⟩

def c5dn : PyDateTime := ⟨2026, 1, 6, 13, 40, 58, 0, none⟩

def c6point : Point :=
  { measurement := "m", tags := [], fields := [], time := 0 }

def c7r1 : OrfRow :=
  { time := none, usid := some "a", title := some "t1", link := none,
    date := none }

def c7r2 : OrfRow :=
  { time := none, usid := some " a ", title := some "t2", link := none,
    date := none }

def c7r3 : OrfRow :=
  { time := none, usid := some "", title := some "t3", link := none,
    date := none }

def c7r4 : OrfRow :=
  { time := none, usid := some "b", title := some "t4", link := none,
    date := none }

def c7rows : List OrfRow := [c7r1, c7r2, c7r3, c7r4]

def c8big : String := String.mk (List.replicate 9000 'a')

def c9item : OrfItem :=
  { usid := some " 123 ", date := some "2026-01-06T13:40:58Z",
    title := some "T", link := some "L", oewaCategory := some "news" }

def c10a : MatchRow :=
  { article_usid := some "a", reddit_id := some "r", saved_at_utc := none,
    source := none, reddit_title := none, reddit_permalink := none,
    post_url := none, checked_word_count := none,
    group_matches_in_window := none, reddit_selftext := none,
    stance_label := none, stance_conf := none }

def c10b : MatchRow :=
  { article_usid := some "b", reddit_id := some "r2", saved_at_utc := some "",
    source := none, reddit_title := none, reddit_permalink := none,
    post_url := none, checked_word_count := none,
    group_matches_in_window := none, reddit_selftext := none,
    stance_label := none, stance_conf := none }

def c10pa : Point :=
  { measurement := "reddit_post"
    tags := [("usid", "a"), ("source", "")]
    fields := [("reddit_id", FieldVal.s "r"), ("title", FieldVal.s ""),
               ("permalink", FieldVal.s ""), ("url", FieldVal.s ""),
               ("checked_word_count", FieldVal.i 0),
               ("group_matches_in_window", FieldVal.i 0),
               ("selftext", FieldVal.s ""), ("stance_label", FieldVal.s ""),
               ("stance_conf", FieldVal.f 0)]
    time := 5 }

def c10pb : Point :=
  { measurement := "reddit_post"
    tags := [("usid", "b"), ("source", "")]
    fields := [("reddit_id", FieldVal.s "r2"), ("title", FieldVal.s ""),
               ("permalink", FieldVal.s ""), ("url", FieldVal.s ""),
               ("checked_word_count", FieldVal.i 0),
               ("group_matches_in_window", FieldVal.i 0),
               ("selftext", FieldVal.s ""), ("stance_label", FieldVal.s ""),
               ("stance_conf", FieldVal.f 0)]
    time := 5 }

def c10qa : Point :=
  { measurement := "reddit_post"
    tags := [("usid", "a"), ("source", "")]
    fields := [("reddit_id", FieldVal.s "r"), ("title", FieldVal.s ""),
               ("permalink", FieldVal.s ""), ("url", FieldVal.s ""),
               ("checked_word_count", FieldVal.i 0),
               ("group_matches_in_window", FieldVal.i 0)]
    time := 5 }

def c10qb : Point :=
  { measurement := "reddit_post"
    tags := [("usid", "b"), ("source", "")]
    fields := [("reddit_id", FieldVal.s "r2"), ("title", FieldVal.s ""),
               ("permalink", FieldVal.s ""), ("url", FieldVal.s ""),
               ("checked_word_count", FieldVal.i 0),
               ("group_matches_in_window", FieldVal.i 0)]
    time := 5 }

/-! ## Helper lemmas -/

theorem write_points_fst (ps : List Point) : (write_points ps).1 = ps.length := by
  unfold write_points
  split
  · next h => simp [List.isEmpty_iff.mp h]
  · rfl

theorem orfItemPoint_isSome (nowFresh tz : Int) (it : OrfItem) :
    (orfItemPoint nowFresh tz it).isSome = orfItemValid it := by
  unfold orfItemPoint orfItemValid
  cases _clean_usid it.usid <;> simp

theorem matchRowPoint_isSome (now nowFresh tz : Int) (r : MatchRow) :
    (matchRowPoint now nowFresh tz r).isSome = matchRowValid r := by
  unfold matchRowPoint matchRowValid
  cases _clean_usid r.article_usid <;> cases _clean_usid r.reddit_id <;> simp

theorem stanceRowPoint_isSome (nowFresh tz : Int) (r : StanceRow) :
    (stanceRowPoint nowFresh tz r).isSome = stanceRowHasIdentity r := by
  unfold stanceRowPoint stanceRowHasIdentity
  cases _clean_usid (pyOr r.article_usid r.usid) <;> simp

theorem redditRowPoint_isSome (r : RedditRow) :
    (redditRowPoint r).isSome = redditRowValid r := by
  unfold redditRowPoint redditRowValid
  cases _clean_usid r.usid <;> cases _clean_usid r.reddit_id <;>
    cases _parse_unix_utc_seconds r.created_utc <;> simp

theorem orf_article_points_length (clock : Nat → Int) (tz : Int) (k : Nat)
    (items : List OrfItem) :
    (orf_article_points clock tz k items).length = items.countP orfItemValid := by
  induction items generalizing k with
  | nil => rfl
  | cons it rest ih =>
    have h := orfItemPoint_isSome (clock k) tz it
    unfold orf_article_points
    rw [List.countP_cons]
    cases hc : orfItemPoint (clock k) tz it with
    | none => rw [hc] at h; simp [ih (k + 1), ← h]
    | some p => rw [hc] at h; simp [ih (k + 1), ← h]

theorem reddit_match_points_length (now : Int) (clock : Nat → Int) (tz : Int)
    (k : Nat) (rows : List MatchRow) :
    (reddit_match_points now clock tz k rows).length =
      rows.countP matchRowValid := by
  induction rows generalizing k with
  | nil => rfl
  | cons r rest ih =>
    have h := matchRowPoint_isSome now (clock k) tz r
    unfold reddit_match_points
    rw [List.countP_cons]
    cases hc : matchRowPoint now (clock k) tz r with
    | none => rw [hc] at h; simp [ih (k + 1), ← h]
    | some p => rw [hc] at h; simp [ih (k + 1), ← h]

theorem stance_update_points_length (clock : Nat → Int) (tz : Int) (k : Nat)
    (rows : List StanceRow) :
    (stance_update_points clock tz k rows).length =
      rows.countP stanceRowHasIdentity := by
  induction rows generalizing k with
  | nil => rfl
  | cons r rest ih =>
    have h := stanceRowPoint_isSome (clock k) tz r
    unfold stance_update_points
    rw [List.countP_cons]
    cases hc : stanceRowPoint (clock k) tz r with
    | none => rw [hc] at h; simp [ih (k + 1), ← h]
    | some p => rw [hc] at h; simp [ih (k + 1), ← h]

theorem reddit_rows_to_points_length (rows : List RedditRow) :
    (reddit_rows_to_points rows).length = rows.countP redditRowValid := by
  unfold reddit_rows_to_points
  induction rows with
  | nil => rfl
  | cons r rest ih =>
    have h := redditRowPoint_isSome r
    rw [List.filterMap_cons, List.countP_cons]
    cases hc : redditRowPoint r with
    | none => rw [hc] at h; simp [ih, ← h]
    | some p => rw [hc] at h; simp [ih, ← h]

/-! ## Claim C1 -/

/-- C1 (counterexample): a record passed to `write_reddit_stance_updates` with
a resolvable identity but with both `saved_at_utc` and `_time` missing still
contributes a point, contradicting the claim that a record without a
resolvable timestamp is dropped. -/
theorem C1_stance_timestamp_not_required :
    c1row.saved_at_utc = none ∧ c1row.time_field = none ∧
    (stance_update_points (fun _ => 0) 0 0 [c1row]).length = 1 := by
  decide

/-- C1 (amended): in `write_reddit_stance_updates` a record contributes a
point exactly when its identity (`article_usid` or `usid`) resolves to a
non-blank usid; a missing or unparseable timestamp does not cause a drop —
the point count equals the number of identity-resolvable records, and a
single record yields a point iff its identity resolves, for every possible
timestamp outcome. -/
theorem C1_stance_updates_drop_only_on_identity (clock : Nat → Int)
    (tzLocalUsec nowFresh : Int) (k : Nat) (rows : List StanceRow)
    (r : StanceRow) :
    (stance_update_points clock tzLocalUsec k rows).length =
      rows.countP stanceRowHasIdentity ∧
    (stanceRowPoint nowFresh tzLocalUsec r).isSome = stanceRowHasIdentity r :=
  ⟨stance_update_points_length clock tzLocalUsec k rows,
   stanceRowPoint_isSome nowFresh tzLocalUsec r⟩

/-! ## Claim C3 -/

/-- C3: `reddit_rows_to_points` is a deterministic function of its input: two
runs on the same row list agree on every point's measurement, tag set and
timestamp, and re-running the batch adds no new distinct
(measurement, tag-set, timestamp) key. -/
theorem C3_reddit_rows_to_points_deterministic (rows : List RedditRow) :
    (reddit_rows_to_points rows).map pointKey =
      (reddit_rows_to_points rows).map pointKey ∧
    ∀ k, k ∈ (reddit_rows_to_points rows).map pointKey ++
              (reddit_rows_to_points rows).map pointKey ↔
          k ∈ (reddit_rows_to_points rows).map pointKey :=
  ⟨rfl, fun k => by simp [List.mem_append]⟩

/-! ## Claim C4 -/

/-- C4: the count returned by `write_orf_articles`, `write_reddit_matches`
and `write_reddit_posts` is at most the input length, with equality iff every
record has a valid identity (usid for articles; usid and reddit_id for posts)
and, on the `write_reddit_posts` creation path, also a parseable
`created_utc`. -/
theorem C4_write_count_bounds (now tzLocalUsec : Int) (clock : Nat → Int)
    (items : List OrfItem) (mrows : List MatchRow) (rrows : List RedditRow) :
    ((write_orf_articles clock tzLocalUsec items).1 ≤ items.length ∧
      ((write_orf_articles clock tzLocalUsec items).1 = items.length ↔
        ∀ it ∈ items, orfItemValid it)) ∧
    ((write_reddit_matches now clock tzLocalUsec mrows).1 ≤ mrows.length ∧
      ((write_reddit_matches now clock tzLocalUsec mrows).1 = mrows.length ↔
        ∀ r ∈ mrows, matchRowValid r)) ∧
    ((write_reddit_posts rrows).1 ≤ rrows.length ∧
      ((write_reddit_posts rrows).1 = rrows.length ↔
        ∀ r ∈ rrows, redditRowValid r)) := by
  refine ⟨⟨?_, ?_⟩, ⟨?_, ?_⟩, ⟨?_, ?_⟩⟩
  · simp only [write_orf_articles, write_points_fst,
      orf_article_points_length]
    exact List.countP_le_length _
  · simp only [write_orf_articles, write_points_fst,
      orf_article_points_length]
    exact List.countP_eq_length
  · simp only [write_reddit_matches, write_points_fst,
      reddit_match_points_length]
    exact List.countP_le_length _
  · simp only [write_reddit_matches, write_points_fst,
      reddit_match_points_length]
    exact List.countP_eq_length
  · simp only [write_reddit_posts, write_points_fst,
      reddit_rows_to_points_length]
    exact List.countP_le_length _
  · simp only [write_reddit_posts, write_points_fst,
      reddit_rows_to_points_length]
    exact List.countP_eq_length

/-- C4 witness: on concrete singleton batches with valid records each write
function reports a count equal to the input length. -/
theorem C4_write_count_bounds_witness :
    (write_orf_articles (fun _ => 0) 0 [c4item]).1 = [c4item].length ∧
    (write_reddit_matches 0 (fun _ => 0) 0 [c4mrow]).1 = [c4mrow].length ∧
    (write_reddit_posts [c4rrow]).1 = [c4rrow].length :=
  ⟨((C4_write_count_bounds 0 0 (fun _ => 0) [c4item] [c4mrow]
      [c4rrow]).1.2).mpr (by decide),
   ((C4_write_count_bounds 0 0 (fun _ => 0) [c4item] [c4mrow]
      [c4rrow]).2.1.2).mpr (by decide),
   ((C4_write_count_bounds 0 0 (fun _ => 0) [c4item] [c4mrow]
      [c4rrow]).2.2.2).mpr (by decide)⟩

/-! ## Claim C6 -/

/-- C6: `write_points` on an empty list returns 0 and performs no effect at
all (no client is created); on a non-empty list it creates one client, issues
exactly one batched write call carrying the whole list, and returns its
length. -/
theorem C6_write_points_effects (ps : List Point) :
    (ps = [] → write_points ps = (0, [])) ∧
    (ps ≠ [] →
      write_points ps =
        (ps.length,
          [Effect.clientCreated,
           Effect.writeCall INFLUX_BUCKET INFLUX_ORG ps])) := by
  constructor
  · intro h; subst h; rfl
  · intro h
    unfold write_points
    rw [if_neg (by simpa [List.isEmpty_iff] using h)]

/-- C6 witness: the empty batch produces count 0 with no effects; a singleton
batch produces count 1 via exactly one write call. -/
theorem C6_write_points_effects_witness :
    write_points [] = (0, []) ∧
    write_points [c6point] =
      (1, [Effect.clientCreated,
           Effect.writeCall INFLUX_BUCKET INFLUX_ORG [c6point]]) :=
  ⟨(C6_write_points_effects []).1 rfl,
   by simpa using (C6_write_points_effects [c6point]).2 (by simp)⟩

/-! ## Claim C8 -/

/-- C8: `_clip` with limit 8000 maps any 9000-character string to an
8001-character string whose last character is the truncation marker `…` and
whose first 8000 characters are the input's prefix; any string of length at
most 8000 is returned unchanged. -/
theorem C8_clip_truncation (s t : String) (hs : s.length = 9000)
    (ht : t.length ≤ 8000) :
    (_clip s 8000).length = 8001 ∧
    (_clip s 8000).data.take 8000 = s.data.take 8000 ∧
    (_clip s 8000).data.getLast? = some '…' ∧
    _clip t 8000 = t := by
  have hgt : ¬ s.length ≤ 8000 := by omega
  have hlen : (s.data.take 8000).length = 8000 := by
    have : s.data.length = 9000 := hs
    simp [List.length_take, this]
  refine ⟨?_, ?_, ?_, ?_⟩
  · simp [_clip, hgt, hlen]
    decide
  · simp only [_clip, if_neg hgt, String.data_append]
    rw [List.take_append_of_le_length (by omega)]
    simp [List.take_take]
  · simp only [_clip, if_neg hgt, String.data_append]
    exact List.getLast?_concat _
  · simp [_clip, ht]

/-- C8 witness: a concrete 9000-character string is clipped to 8001
characters ending in the marker, and a short string is unchanged. -/
theorem C8_clip_truncation_witness :
    (_clip c8big 8000).length = 8001 ∧
    (_clip c8big 8000).data.take 8000 = c8big.data.take 8000 ∧
    (_clip c8big 8000).data.getLast? = some '…' ∧
    _clip "x" 8000 = "x" :=
  C8_clip_truncation c8big "x"
    (by unfold c8big; rw [String.length_mk, List.length_replicate]) (by decide)

/-! ## Claim C9 -/

/-- C9: `write_orf_articles` on the single record
`{usid: " 123 ", date: "2026-01-06T13:40:58Z", title: "T", link: "L",
oewaCategory: "news"}` builds exactly one point with measurement
`orf_article`, trimmed usid tag `123`, category tag `news`, fields
`title = "T"` and `link = "L"`, and timestamp 2026-01-06T13:40:58 UTC —
whatever the ambient clock and local timezone are. -/
theorem C9_orf_article_example (clock : Nat → Int) (tzLocalUsec : Int) :
    orf_article_points clock tzLocalUsec 0 [c9item] =
      [{ measurement := "orf_article"
         tags := [("category", "news"), ("usid", "123")]
         fields := [("title", FieldVal.s "T"), ("link", FieldVal.s "L")]
         time := utc_instant 2026 1 6 13 40 58 }] ∧
    (write_orf_articles clock tzLocalUsec [c9item]).1 = 1 := by
  constructor <;> rfl

theorem matchRowPoint_time_of_empty_ts (now nowFresh tz : Int) (r : MatchRow)
    (p : Point) (hts : r.saved_at_utc = none ∨ r.saved_at_utc = some "")
    (h : matchRowPoint now nowFresh tz r = some p) : p.time = now := by
  have hstr : pyStr r.saved_at_utc "" = "" := by
    rcases hts with h1 | h1 <;> simp [pyStr, h1]
  unfold matchRowPoint at h
  split at h
  · simp only [hstr, ne_eq, not_true_eq_false, if_false, reduceIte] at h
    cases h
    rfl
  · cases h

theorem matchRowPointLegacy_time_of_empty_ts (now nowFresh tz : Int)
    (r : MatchRow) (p : Point)
    (hts : r.saved_at_utc = none ∨ r.saved_at_utc = some "")
    (h : matchRowPointLegacy now nowFresh tz r = some p) : p.time = now := by
  have hstr : pyStr r.saved_at_utc "" = "" := by
    rcases hts with h1 | h1 <;> simp [pyStr, h1]
  unfold matchRowPointLegacy at h
  split at h
  · simp only [hstr, ne_eq, not_true_eq_false, if_false, reduceIte] at h
    cases h
    rfl
  · cases h

/-! ## Claim C10 -/

/-- C10: in a single call to `write_reddit_matches` (current and legacy
variants alike) the fallback timestamp `now` is captured once at the start of
the call, so any two records of the batch whose `saved_at_utc` is missing or
empty are stamped with that one shared value — whatever the per-record fresh
clock readings would have been. -/
theorem C10_fallback_now_captured_once (now tzLocalUsec : Int)
    (clock : Nat → Int) (i j : Nat) (a b : MatchRow) (pa pb qa qb : Point)
    (ha : a.saved_at_utc = none ∨ a.saved_at_utc = some "")
    (hb : b.saved_at_utc = none ∨ b.saved_at_utc = some "")
    (hpa : matchRowPoint now (clock i) tzLocalUsec a = some pa)
    (hpb : matchRowPoint now (clock j) tzLocalUsec b = some pb)
    (hqa : matchRowPointLegacy now (clock i) tzLocalUsec a = some qa)
    (hqb : matchRowPointLegacy now (clock j) tzLocalUsec b = some qb) :
    (pa.time = now ∧ pb.time = now ∧ pa.time = pb.time) ∧
    (qa.time = now ∧ qb.time = now ∧ qa.time = qb.time) := by
  have h1 := matchRowPoint_time_of_empty_ts now (clock i) tzLocalUsec a pa ha hpa
  have h2 := matchRowPoint_time_of_empty_ts now (clock j) tzLocalUsec b pb hb hpb
  have h3 := matchRowPointLegacy_time_of_empty_ts now (clock i) tzLocalUsec a qa ha hqa
  have h4 := matchRowPointLegacy_time_of_empty_ts now (clock j) tzLocalUsec b qb hb hqb
  exact ⟨⟨h1, h2, h1.trans h2.symm⟩, ⟨h3, h4, h3.trans h4.symm⟩⟩

/-- C10 witness: two concrete records, one with `saved_at_utc` absent and one
with it empty, processed at distinct fresh clock readings, both receive the
captured batch timestamp. -/
theorem C10_fallback_now_captured_once_witness :
    (c10pa.time = 5 ∧ c10pb.time = 5 ∧ c10pa.time = c10pb.time) ∧
    (c10qa.time = 5 ∧ c10qb.time = 5 ∧ c10qa.time = c10qb.time) :=
  C10_fallback_now_captured_once 5 0 (fun k => (k : Int) + 9) 0 1 c10a c10b
    c10pa c10pb c10qa c10qb (by decide) (by decide) (by decide) (by decide)
    (by decide) (by decide)

theorem clean_some_pyOr (x y : Option String) (v : String)
    (h : _clean_usid x = some v) : pyOr x y = x := by
  cases x with
  | none => simp [_clean_usid] at h
  | some t =>
    by_cases ht : t = ""
    · subst ht
      have hnone : _clean_usid (some "") = none := rfl
      rw [hnone] at h
      cases h
    · simp [pyOr, ht]

theorem _parse_iso_parses (now tz : Int) (s : String) (d : PyDateTime)
    (hne : s ≠ "") (hp : fromisoformat (replaceZ s.data) = some d) :
    _parse_iso now tz s = toEpochUsec tz d := by
  unfold _parse_iso
  rw [if_neg hne, hp]

theorem toEpochUsec_offset_indep (tz1 tz2 off : Int) (d : PyDateTime)
    (h : d.tzUsec = some off) : toEpochUsec tz1 d = toEpochUsec tz2 d := by
  unfold toEpochUsec
  rw [h]
  rfl

/-! ## Claim C2 -/

/-- C2: a stance-update record whose `saved_at_utc` echoes the timestamp
string of the original post write (a valid ISO-8601 UTC string) and whose
identity fields echo the original's produces an update point with exactly the
same instant and the same (usid, source) tag pair as the original
`write_reddit_matches` point — independently of the clocks and local
timezones in effect during either call. -/
theorem C2_stance_update_echoes_original (m : MatchRow) (u : StanceRow)
    (now nowFreshM nowFreshU tzM tzU : Int) (d : PyDateTime) (s : String)
    (hs : m.saved_at_utc = some s) (hne : s ≠ "")
    (hparse : fromisoformat (replaceZ s.data) = some d)
    (hutc : d.tzUsec = some 0)
    (husid : (_clean_usid m.article_usid).isSome = true)
    (hrid : (_clean_usid m.reddit_id).isSome = true)
    (hu1 : u.article_usid = m.article_usid)
    (hu2 : u.source = m.source)
    (hu3 : u.saved_at_utc = some s) :
    (matchRowPoint now nowFreshM tzM m).isSome = true ∧
    (stanceRowPoint nowFreshU tzU u).map Point.time =
      (matchRowPoint now nowFreshM tzM m).map Point.time ∧
    (stanceRowPoint nowFreshU tzU u).map Point.tags =
      (matchRowPoint now nowFreshM tzM m).map Point.tags := by
  obtain ⟨usid0, hcl⟩ := Option.isSome_iff_exists.mp husid
  obtain ⟨rid0, hclr⟩ := Option.isSome_iff_exists.mp hrid
  have hpy : pyOr u.article_usid u.usid = m.article_usid := by
    rw [hu1]
    exact clean_some_pyOr m.article_usid u.usid usid0 hcl
  have hstrm : pyStr m.saved_at_utc "" = s := by
    rw [hs]
    simp [pyStr, hne]
  have hstru : pyStr (pyOr u.saved_at_utc u.time_field) "" = s := by
    rw [hu3]
    simp [pyOr, pyStr, hne]
  have hpm : _parse_iso nowFreshM tzM s = toEpochUsec tzM d :=
    _parse_iso_parses nowFreshM tzM s d hne hparse
  have hpu : _parse_iso nowFreshU tzU s = toEpochUsec tzU d :=
    _parse_iso_parses nowFreshU tzU s d hne hparse
  have hoff : toEpochUsec tzU d = toEpochUsec tzM d :=
    toEpochUsec_offset_indep tzU tzM 0 d hutc
  unfold matchRowPoint stanceRowPoint
  simp only [hpy, hcl, hclr, hstrm, hstru, hne, ne_eq, not_false_eq_true,
    if_true, ite_true, hpm, hpu, hoff, hu2, Option.map_some', Option.isSome_some]
  exact ⟨trivial, trivial, trivial⟩

/-- C2 witness: a concrete original match record and a stance-update record
echoing its identity, source and ISO-8601 UTC timestamp produce points with
identical instants and identical (usid, source) tags under different clocks
and timezones. -/
theorem C2_stance_update_echoes_original_witness :
    (matchRowPoint 11 22 33 c2m).isSome = true ∧
    (stanceRowPoint 44 55 c2u).map Point.time =
      (matchRowPoint 11 22 33 c2m).map Point.time ∧
    (stanceRowPoint 44 55 c2u).map Point.tags =
      (matchRowPoint 11 22 33 c2m).map Point.tags :=
  C2_stance_update_echoes_original c2m c2u 11 22 44 33 55 c2d
    "2026-01-06T13:40:58Z" rfl (by decide) (by decide) rfl (by decide)
    (by decide) rfl rfl rfl

/-! ## Claim C5 -/

/-- C5 (counterexample): `_parse_iso` does not map every ISO-8601 string
without an explicit UTC marker to the UTC instant the string denotes — on a
naive string, `fromisoformat(...).astimezone(utc)` interprets the fields in
the process-local timezone; with a local offset of +1 hour the result differs
from the denoted UTC instant by that hour. -/
theorem C5_naive_string_not_utc :
    _parse_iso 0 3600000000 "2026-01-06T13:40:58" ≠
      utc_instant 2026 1 6 13 40 58 := by
  decide

/-- C5 (amended): `_parse_iso` never raises (it is total); it returns the
current time `now` on empty input and on unparseable input; a parseable
string carrying an explicit UTC offset (such as one written with the `Z`
marker) is mapped to the corresponding UTC instant, independent of `now` and
of the process-local timezone; a parseable string without an offset is
interpreted in the process-local timezone and then converted to UTC. -/
theorem C5_parse_iso_behaviour :
    (∀ now tz, _parse_iso now tz "" = now) ∧
    (∀ now tz s, s ≠ "" → fromisoformat (replaceZ s.data) = none →
      _parse_iso now tz s = now) ∧
    (∀ now1 now2 tz1 tz2 s d off, s ≠ "" →
      fromisoformat (replaceZ s.data) = some d → d.tzUsec = some off →
      _parse_iso now1 tz1 s = toEpochUsec 0 d ∧
      _parse_iso now1 tz1 s = _parse_iso now2 tz2 s) ∧
    (∀ now tz s d, s ≠ "" →
      fromisoformat (replaceZ s.data) = some d → d.tzUsec = none →
      _parse_iso now tz s = toEpochUsec tz d) := by
  refine ⟨fun now tz => rfl, ?_, ?_, ?_⟩
  · intro now tz s hne hnone
    unfold _parse_iso
    rw [if_neg hne, hnone]
  · intro now1 now2 tz1 tz2 s d off hne hsome hoff
    have h1 := _parse_iso_parses now1 tz1 s d hne hsome
    have h2 := _parse_iso_parses now2 tz2 s d hne hsome
    constructor
    · rw [h1]
      exact toEpochUsec_offset_indep tz1 0 off d hoff
    · rw [h1, h2]
      exact toEpochUsec_offset_indep tz1 tz2 off d hoff
  · intro now tz s d hne hsome hnaive
    exact _parse_iso_parses now tz s d hne hsome

/-- C5 witness: concrete runs — empty input and garbage return the given
`now`; an explicit-UTC string yields its instant regardless of `now` and the
local timezone; a naive string is shifted by the local timezone. -/
theorem C5_parse_iso_behaviour_witness :
    _parse_iso 7 5 "" = 7 ∧
    _parse_iso 7 5 "zzz" = 7 ∧
    _parse_iso 7 3600000000 "2026-01-06T13:40:58Z" = toEpochUsec 0 c5dz ∧
    _parse_iso 7 3600000000 "2026-01-06T13:40:58Z" =
      _parse_iso 8 0 "2026-01-06T13:40:58Z" ∧
    _parse_iso 7 3600000000 "2026-01-06T13:40:58" =
      toEpochUsec 3600000000 c5dn :=
  ⟨C5_parse_iso_behaviour.1 7 5,
   C5_parse_iso_behaviour.2.1 7 5 "zzz" (by decide) (by decide),
   (C5_parse_iso_behaviour.2.2.1 7 8 3600000000 0 "2026-01-06T13:40:58Z"
      c5dz 0 (by decide) (by decide) rfl).1,
   (C5_parse_iso_behaviour.2.2.1 7 8 3600000000 0 "2026-01-06T13:40:58Z"
      c5dz 0 (by decide) (by decide) rfl).2,
   C5_parse_iso_behaviour.2.2.2 7 3600000000 "2026-01-06T13:40:58" c5dn
     (by decide) (by decide) rfl⟩

theorem dedupInsert_key_none (acc : List (String × OrfRow)) (r : OrfRow)
    (hu : _clean_usid r.usid = none) : dedupInsert acc r = acc := by
  unfold dedupInsert
  rw [hu]

theorem dedupInsert_key_present (acc : List (String × OrfRow)) (r : OrfRow)
    (u0 : String) (hu : _clean_usid r.usid = some u0)
    (hany : acc.any (fun p => decide (p.1 = u0)) = true) :
    dedupInsert acc r = acc := by
  unfold dedupInsert
  rw [hu]
  simp [hany]

theorem dedupInsert_key_new (acc : List (String × OrfRow)) (r : OrfRow)
    (u0 : String) (hu : _clean_usid r.usid = some u0)
    (hany : acc.any (fun p => decide (p.1 = u0)) = false) :
    dedupInsert acc r = acc ++ [(u0, r)] := by
  unfold dedupInsert
  rw [hu]
  simp [hany]

theorem dedup_fold_ok (rows : List OrfRow) :
    ∀ (pre : List OrfRow) (acc : List (String × OrfRow)),
      ((acc.map Prod.fst).Nodup) →
      (∀ u r, (u, r) ∈ acc → pre.find? (rowKeyIs u) = some r) →
      (∀ u, (∃ r, (u, r) ∈ acc) ↔ ∃ x ∈ pre, _clean_usid x.usid = some u) →
      (((rows.foldl dedupInsert acc).map Prod.fst).Nodup ∧
        (∀ u r, (u, r) ∈ rows.foldl dedupInsert acc →
          (pre ++ rows).find? (rowKeyIs u) = some r) ∧
        (∀ u, (∃ r, (u, r) ∈ rows.foldl dedupInsert acc) ↔
          ∃ x ∈ pre ++ rows, _clean_usid x.usid = some u)) := by
  induction rows with
  | nil =>
    intro pre acc h1 h2 h3
    simpa using ⟨h1, h2, h3⟩
  | cons r rest ih =>
    intro pre acc h1 h2 h3
    rw [List.foldl_cons]
    have hins1 : ((dedupInsert acc r).map Prod.fst).Nodup := by
      cases hu : _clean_usid r.usid with
      | none =>
        rw [dedupInsert_key_none acc r hu]
        exact h1
      | some u0 =>
        by_cases hany : acc.any (fun p => decide (p.1 = u0)) = true
        · rw [dedupInsert_key_present acc r u0 hu hany]
          exact h1
        · have hanyf : acc.any (fun p => decide (p.1 = u0)) = false :=
            Bool.eq_false_iff.mpr hany
          rw [dedupInsert_key_new acc r u0 hu hanyf]
          have hnot : u0 ∉ acc.map Prod.fst := by
            intro hmem
            obtain ⟨p, hp, hp1⟩ := List.mem_map.mp hmem
            exact hany (List.any_eq_true.mpr ⟨p, hp, by simp [hp1]⟩)
          rw [List.map_append]
          refine List.nodup_append.mpr ⟨h1, by simp, ?_⟩
          intro x hx hx2
          simp only [List.map_cons, List.map_nil, List.mem_singleton] at hx2
          subst hx2
          exact hnot hx
    have hins2 : ∀ u rr, (u, rr) ∈ dedupInsert acc r →
        (pre ++ [r]).find? (rowKeyIs u) = some rr := by
      intro u rr hmem
      rw [List.find?_append]
      cases hu : _clean_usid r.usid with
      | none =>
        rw [dedupInsert_key_none acc r hu] at hmem
        rw [h2 u rr hmem]
        rfl
      | some u0 =>
        by_cases hany : acc.any (fun p => decide (p.1 = u0)) = true
        · rw [dedupInsert_key_present acc r u0 hu hany] at hmem
          rw [h2 u rr hmem]
          rfl
        · have hanyf : acc.any (fun p => decide (p.1 = u0)) = false :=
            Bool.eq_false_iff.mpr hany
          rw [dedupInsert_key_new acc r u0 hu hanyf] at hmem
          rcases List.mem_append.mp hmem with hin | hnew
          · rw [h2 u rr hin]
            rfl
          · have heq : u = u0 ∧ rr = r := by simpa using hnew
            obtain ⟨rfl, rfl⟩ := heq
            have hnone : pre.find? (rowKeyIs u) = none := by
              rw [List.find?_eq_none]
              intro x hx hpx
              have hcl : _clean_usid x.usid = some u := by
                simpa [rowKeyIs] using hpx
              obtain ⟨rr2, hrr2⟩ := (h3 u).mpr ⟨x, hx, hcl⟩
              exact hany (List.any_eq_true.mpr ⟨(u, rr2), hrr2, by simp⟩)
            rw [hnone]
            simp [rowKeyIs, hu]
    have hins3 : ∀ u, (∃ rr, (u, rr) ∈ dedupInsert acc r) ↔
        ∃ x ∈ pre ++ [r], _clean_usid x.usid = some u := by
      intro u
      cases hu : _clean_usid r.usid with
      | none =>
        rw [dedupInsert_key_none acc r hu]
        constructor
        · rintro ⟨rr, hrr⟩
          obtain ⟨x, hx, hcl⟩ := (h3 u).mp ⟨rr, hrr⟩
          exact ⟨x, List.mem_append_left _ hx, hcl⟩
        · rintro ⟨x, hx, hcl⟩
          rcases List.mem_append.mp hx with hx1 | hx1
          · exact (h3 u).mpr ⟨x, hx1, hcl⟩
          · have hxr : x = r := by simpa using hx1
            rw [hxr, hu] at hcl
            cases hcl
      | some u0 =>
        by_cases hany : acc.any (fun p => decide (p.1 = u0)) = true
        · rw [dedupInsert_key_present acc r u0 hu hany]
          constructor
          · rintro ⟨rr, hrr⟩
            obtain ⟨x, hx, hcl⟩ := (h3 u).mp ⟨rr, hrr⟩
            exact ⟨x, List.mem_append_left _ hx, hcl⟩
          · rintro ⟨x, hx, hcl⟩
            rcases List.mem_append.mp hx with hx1 | hx1
            · exact (h3 u).mpr ⟨x, hx1, hcl⟩
            · have hxr : x = r := by simpa using hx1
              rw [hxr, hu] at hcl
              have huu : u = u0 := (Option.some.inj hcl).symm
              obtain ⟨p, hp, hp1⟩ := List.any_eq_true.mp hany
              have hp1x : p.1 = u0 := by simpa using hp1
              refine ⟨p.2, ?_⟩
              have hpe : (u, p.2) = p := by rw [huu, ← hp1x]
              rw [hpe]
              exact hp
        · have hanyf : acc.any (fun p => decide (p.1 = u0)) = false :=
            Bool.eq_false_iff.mpr hany
          rw [dedupInsert_key_new acc r u0 hu hanyf]
          constructor
          · rintro ⟨rr, hrr⟩
            rcases List.mem_append.mp hrr with hin | hnew
            · obtain ⟨x, hx, hcl⟩ := (h3 u).mp ⟨rr, hin⟩
              exact ⟨x, List.mem_append_left _ hx, hcl⟩
            · have heq : u = u0 ∧ rr = r := by simpa using hnew
              obtain ⟨rfl, _⟩ := heq
              exact ⟨r, List.mem_append_right _ (by simp), hu⟩
          · rintro ⟨x, hx, hcl⟩
            rcases List.mem_append.mp hx with hx1 | hx1
            · obtain ⟨rr, hrr⟩ := (h3 u).mpr ⟨x, hx1, hcl⟩
              exact ⟨rr, List.mem_append_left _ hrr⟩
            · have hxr : x = r := by simpa using hx1
              rw [hxr, hu] at hcl
              have huu : u = u0 := (Option.some.inj hcl).symm
              refine ⟨r, ?_⟩
              rw [huu]
              exact List.mem_append_right _ (by simp)
    have hmain := ih (pre ++ [r]) (dedupInsert acc r) hins1 hins2 hins3
    refine ⟨hmain.1, ?_, ?_⟩
    · intro u rr hmem
      have h := hmain.2.1 u rr hmem
      rwa [List.append_assoc, List.singleton_append] at h
    · intro u
      have h := hmain.2.2 u
      rwa [List.append_assoc, List.singleton_append] at h

/-! ## Claim C7 -/

/-- C7: the deduplication step of `load_orf_articles_from_influx` keeps
exactly one row per distinct non-empty cleaned usid — the output keys are
pairwise distinct, every surviving entry is the first row of the input whose
cleaned usid equals its key, a key appears iff some input row cleans to it
(so rows whose usid cleans to empty/None are omitted), and the returned rows
are the surviving entries in insertion order. -/
theorem C7_dedup_first_occurrence_wins (rows : List OrfRow) :
    ((rows.foldl dedupInsert []).map Prod.fst).Nodup ∧
    (∀ u r, (u, r) ∈ rows.foldl dedupInsert [] →
      rows.find? (rowKeyIs u) = some r) ∧
    (∀ u, (∃ r, (u, r) ∈ rows.foldl dedupInsert []) ↔
      ∃ x ∈ rows, _clean_usid x.usid = some u) ∧
    dedup_rows rows = (rows.foldl dedupInsert []).map Prod.snd := by
  have h := dedup_fold_ok rows [] [] (by simp) (by simp) (by simp)
  exact ⟨h.1, by simpa using h.2.1, by simpa using h.2.2, rfl⟩

/-- C7 witness: on a concrete list with a repeated key (`"a"` and `" a "`),
an empty key and a second distinct key, the surviving row for `"a"` is the
first occurrence. -/
theorem C7_dedup_first_occurrence_wins_witness :
    c7rows.find? (rowKeyIs "a") = some c7r1 :=
  (C7_dedup_first_occurrence_wins c7rows).2.1 "a" c7r1 (by decide)
